import Mathlib

/-!
Shallow embedding of the Mold-Prevention-System firmware core, translated
from the C sources:

* system_health.c — per-channel sensor diagnostics and drift cross-check
* main.c (sensor node) — health task gating and report classification
* vtt_model.c — the VTT mold growth/decline integrator
* node_manager.c — server-side node registry and watchdog sweep
* network_listener.c / main.c (server node) — room-name scanning, the
  bounded message queue and the storedata request handler

Machine floats are embedded as exact rationals (diagnostics) or reals
(the VTT model, which uses log/exp); C strings are embedded as List Char
with explicit strncpy-style truncation; the fixed-capacity registry and
message queue are embedded as lists with explicit bounds.
-/

namespace MoldPrevention

/-! ### Health diagnostics (system_health.h / system_health.c) -/

/-- The health_status_code_t enum of system_health.h, in declared order. -/
inductive HealthStatus where
  | HEALTH_OK
  | VALUE_DRIFT
  | SENSOR_SDASCL_FAIL
  | SENSOR_NOT_READY
  | SENSOR_VCC_FAIL
  | SENSOR_FETCH_FAIL
  | TEMP_VALUE_GET_FAIL
  | HUMI_VALUE_GET_FAIL
  | VALUES_GET_FAIL
  | TEMPERATURE_VAL_OUT_OF_RANGE
  | HUMIDITIY_VAL_OUT_OF_RANGE
  | VALUES_OUT_OF_RANGE
  deriving DecidableEq, Repr

open HealthStatus

/-- The numeric value each enumerator receives in C (implicit 0,1,2,...). -/
def statusCode : HealthStatus → Nat
  | HEALTH_OK => 0
  | VALUE_DRIFT => 1
  | SENSOR_SDASCL_FAIL => 2
  | SENSOR_NOT_READY => 3
  | SENSOR_VCC_FAIL => 4
  | SENSOR_FETCH_FAIL => 5
  | TEMP_VALUE_GET_FAIL => 6
  | HUMI_VALUE_GET_FAIL => 7
  | VALUES_GET_FAIL => 8
  | TEMPERATURE_VAL_OUT_OF_RANGE => 9
  | HUMIDITIY_VAL_OUT_OF_RANGE => 10
  | VALUES_OUT_OF_RANGE => 11

/-- Zephyr struct sensor_value: val1 integer part, val2 millionths. -/
structure SensorValue where
  val1 : Int
  val2 : Int
  deriving DecidableEq, Repr

/-- sensor_value_to_double: val1 + val2 / 1000000, embedded exactly in ℚ. -/
def sensor_value_to_double (v : SensorValue) : ℚ :=
  (v.val1 : ℚ) + (v.val2 : ℚ) / 1000000

/-- One channel's observable driver behaviour for a diagnostic cycle: the
return codes of device_is_ready, sensor_sample_fetch and the two
sensor_channel_get calls, plus the decoded raw values. -/
structure DeviceRead where
  ready_code : Int
  fetch_code : Int
  temp_get_code : Int
  humi_get_code : Int
  temperature : SensorValue
  humidity : SensorValue
  deriving DecidableEq, Repr

/-- check_sensor of system_health.c: the layered per-channel validation.
Returns the status code together with the values written through the
final_temp/final_humi out-parameters (which the caller initialises to 0,
so a failing check leaves them at 0).  The branch ordering is exactly the
source's: note that the two single-field range checks return before the
combined VALUES_OUT_OF_RANGE check is reached. -/
def check_sensor (d : DeviceRead) : HealthStatus × ℚ × ℚ :=
  if d.ready_code ≠ 1 then
    (if d.ready_code = 0 then SENSOR_SDASCL_FAIL else SENSOR_NOT_READY, 0, 0)
  else if d.fetch_code ≠ 0 then
    (if d.fetch_code = -5 then SENSOR_VCC_FAIL else SENSOR_FETCH_FAIL, 0, 0)
  else if d.temp_get_code ≠ 0 ∧ d.humi_get_code ≠ 0 then (VALUES_GET_FAIL, 0, 0)
  else if d.temp_get_code ≠ 0 ∧ d.humi_get_code = 0 then (TEMP_VALUE_GET_FAIL, 0, 0)
  else if d.humi_get_code ≠ 0 ∧ d.temp_get_code = 0 then (HUMI_VALUE_GET_FAIL, 0, 0)
  else if d.temperature.val1 < -40 ∨ d.temperature.val1 > 80 then
    (TEMPERATURE_VAL_OUT_OF_RANGE, 0, 0)
  else if d.humidity.val1 < 0 ∨ d.humidity.val1 > 100 then
    (HUMIDITIY_VAL_OUT_OF_RANGE, 0, 0)
  else if (d.temperature.val1 < -40 ∨ d.temperature.val1 > 80) ∧
          (d.humidity.val1 < 0 ∨ d.humidity.val1 > 100) then
    (VALUES_OUT_OF_RANGE, 0, 0)
  else (HEALTH_OK, sensor_value_to_double d.temperature, sensor_value_to_double d.humidity)

/-- check_drift of system_health.c: absolute differences computed by
sign-flip exactly as in the source, escalation guarded per channel by
status == HEALTH_OK.  MAX_DRIFT_THRESHOLD is 5.0. -/
def check_drift (t1 h1 t2 h2 : ℚ) (s0 s1 : HealthStatus) : HealthStatus × HealthStatus :=
  let temp_diff0 := t1 - t2
  let hum_diff0 := h1 - h2
  let temp_diff := if temp_diff0 < 0 then -temp_diff0 else temp_diff0
  let hum_diff := if hum_diff0 < 0 then -hum_diff0 else hum_diff0
  if temp_diff > 5 ∨ hum_diff > 5 then
    (if s0 = HEALTH_OK then VALUE_DRIFT else s0,
     if s1 = HEALTH_OK then VALUE_DRIFT else s1)
  else (s0, s1)

/-- check_system_health of system_health.c: run both per-channel checks,
then the drift cross-check only when both channels came back HEALTH_OK. -/
def check_system_health (dA dB : DeviceRead) : HealthStatus × HealthStatus :=
  let rA := check_sensor dA
  let rB := check_sensor dB
  if rA.1 = HEALTH_OK ∧ rB.1 = HEALTH_OK then
    check_drift rA.2.1 rA.2.2 rB.2.1 rB.2.2 rA.1 rB.1
  else (rA.1, rB.1)

/-! ### Health task gating (sensor node main.c, system_health_entry_point) -/

/-- Message kind tags used by the reporting calls. -/
inductive MsgKind where
  | DATA
  | ALERT
  deriving DecidableEq, Repr

/-- The enabled flag computed by the health task: status[i] <= 1. -/
def sensor_enabled (s : HealthStatus) : Bool :=
  statusCode s ≤ 1

/-- The report classification of system_health_entry_point: ALERT exactly
when either channel's code is critical (> 1), else DATA. -/
def health_report_kind (s0 s1 : HealthStatus) : MsgKind :=
  if statusCode s0 > 1 ∨ statusCode s1 > 1 then MsgKind.ALERT else MsgKind.DATA

/-! ### Node registry (node_manager.c) -/

/-- node_info_t: one registry slot.  source_ip is the 64-byte key buffer
(empty string = free slot), room_name the 20-byte label buffer.  C strings
are embedded as List Char; strncpy truncation appears explicitly where the
source performs it. -/
structure NodeInfo where
  source_ip : List Char
  room_name : List Char
  last_seen : Int
  is_online : Bool
  deriving DecidableEq, Repr

/-- The zero-initialised slot the static registry array starts from. -/
def emptySlot : NodeInfo :=
  { source_ip := [], room_name := [], last_seen := 0, is_online := false }

/-- First scan of node_manager_update: find an occupied slot whose IP
matches and refresh it in place (last_seen, truncated room_name, online
flip); none when no slot matches. -/
def registryRefresh (ip room : List Char) (now : Int) :
    List NodeInfo → Option (List NodeInfo)
  | [] => none
  | s :: rest =>
    if s.source_ip ≠ [] ∧ s.source_ip = ip then
      some ({ s with last_seen := now, room_name := room.take 19, is_online := true } :: rest)
    else
      (registryRefresh ip room now rest).map (s :: ·)

/-- Second scan of node_manager_update: fill the first free slot with a
new entry (both strings strncpy-truncated to their buffers); none when the
table is full. -/
def registryInsert (ip room : List Char) (now : Int) :
    List NodeInfo → Option (List NodeInfo)
  | [] => none
  | s :: rest =>
    if s.source_ip = [] then
      some ({ source_ip := ip.take 63, room_name := room.take 19,
              last_seen := now, is_online := true } :: rest)
    else
      (registryInsert ip room now rest).map (s :: ·)

/-- node_manager_update: upsert keyed by IP.  Match scan first; only when
it fails, insert into the first empty slot; when the table is full the
update is dropped and the registry is left untouched. -/
def node_manager_update (reg : List NodeInfo) (ip room : List Char) (now : Int) :
    List NodeInfo :=
  match registryRefresh ip room now reg with
  | some r => r
  | none =>
    match registryInsert ip room now reg with
    | some r => r
    | none => reg

/-! ### Shared message type and bounded queue (shared_types.h, server main.c) -/

/-- server_message_t: payload buffer of 256 bytes, source IP buffer of 64. -/
structure ServerMessage where
  json_payload : List Char
  source_ip : List Char
  deriving DecidableEq, Repr

/-- Capacity of server_queue (K_MSGQ_DEFINE(server_queue, ..., 10, 4)). -/
def SERVER_QUEUE_CAPACITY : Nat := 10

/-- k_msgq_put with K_NO_WAIT on server_queue: append when there is room,
otherwise leave the queue unchanged and report failure (true = accepted). -/
def k_msgq_put (q : List ServerMessage) (m : ServerMessage) :
    List ServerMessage × Bool :=
  if q.length < SERVER_QUEUE_CAPACITY then (q ++ [m], true) else (q, false)

/-- Sequence of non-blocking puts; also counts the messages dropped on a
full queue (each drop is only logged in the source, never an error). -/
def k_msgq_put_all (q : List ServerMessage) : List ServerMessage → List ServerMessage × Nat
  | [] => (q, 0)
  | m :: rest =>
    let step := k_msgq_put q m
    let tail := k_msgq_put_all step.1 rest
    (tail.1, (if step.2 then 0 else 1) + tail.2)

/-! ### Watchdog sweep (node_manager_check_timeout) -/

/-- TIMEOUT_SECONDS * 1000 as used in the sweep's comparison. -/
def TIMEOUT_MS : Int := 15000

/-- The node_lost JSON payload built by snprintf in the sweep, truncated to
the 256-byte payload buffer. -/
def nodeLostPayload (s : NodeInfo) : List Char :=
  (("\x7b\"event\":\"node_lost\", \"room\":\"").data ++ s.room_name ++
    ("\", \"ip\":\"").data ++ s.source_ip ++ ("\"\x7d").data).take 255

/-- The alert message the sweep builds for one expired slot (source_ip
strncpy-truncated into the 64-byte message field). -/
def nodeLostAlert (s : NodeInfo) : ServerMessage :=
  { source_ip := s.source_ip.take 63, json_payload := nodeLostPayload s }

/-- Per-slot effect of one sweep: an occupied, online slot whose
now - last_seen exceeds the threshold is marked offline; empty or offline
slots are skipped untouched. -/
def sweepSlot (now : Int) (s : NodeInfo) : NodeInfo :=
  if s.source_ip ≠ [] ∧ s.is_online = true ∧ now - s.last_seen > TIMEOUT_MS then
    { s with is_online := false }
  else s

/-- The alert (if any) one slot contributes to the sweep. -/
def sweepAlert (now : Int) (s : NodeInfo) : Option ServerMessage :=
  if s.source_ip ≠ [] ∧ s.is_online = true ∧ now - s.last_seen > TIMEOUT_MS then
    some (nodeLostAlert s)
  else none

/-- node_manager_check_timeout: one watchdog sweep.  Slots are visited in
order; each expired online slot is flipped offline and contributes one
alert message, pushed to the queue with k_msgq_put (the second component
lists the alerts in generation order; their queue effect is
k_msgq_put_all, matching the per-slot non-blocking puts of the source). -/
def node_manager_check_timeout (now : Int) (reg : List NodeInfo) :
    List NodeInfo × List ServerMessage :=
  (reg.map (sweepSlot now), reg.filterMap (sweepAlert now))

/-! ### Room-name scan and request handler (network_listener.c) -/

/-- strstr followed by advancing past the key: the suffix of s right after
the first occurrence of key, none when key does not occur. -/
def strAfter (key : List Char) : List Char → Option (List Char)
  | [] => if key = [] then some [] else none
  | c :: rest =>
    if key.isPrefixOf (c :: rest) then some ((c :: rest).drop key.length)
    else strAfter key rest

/-- strchr for a quote followed by advancing past it: the suffix right
after the first double quote, none when no quote occurs. -/
def afterQuote : List Char → Option (List Char)
  | [] => none
  | c :: rest => if c = '\"' then some rest else afterQuote rest

/-- parse_room_name of network_listener.c: best-effort scan for the
"room_name" key; the out-buffer is pre-filled with "Unknown" (itself
strncpy-truncated to the buffer) and only overwritten when key, opening
quote and closing quote are all found; the extracted value is clamped to
buffer_size - 1 characters. -/
def parse_room_name (json_input : List Char) (buffer_size : Nat) : List Char :=
  let fallback := ("Unknown").data.take (buffer_size - 1)
  match strAfter ("\"room_name\"").data json_input with
  | none => fallback
  | some found =>
    match afterQuote found with
    | none => fallback
    | some start =>
      if ('\"') ∈ start then
        let value := start.takeWhile (· ≠ '\"')
        if value.length ≥ buffer_size then value.take (buffer_size - 1) else value
      else fallback

/-- Result of one storedata_request_handler invocation. -/
structure HandlerResult where
  queue : List ServerMessage
  registry : List NodeInfo
  acked : Bool
  deriving DecidableEq, Repr

/-- storedata_request_handler: build the message (IP rendered into the
64-byte field, payload read into the 256-byte buffer), attempt the
non-blocking enqueue; only on success parse the room name (20-byte
buffer) and update the node registry; finally ACK confirmable requests
unconditionally. -/
def storedata_request_handler (queue : List ServerMessage) (reg : List NodeInfo)
    (sender payload : List Char) (confirmable : Bool) (now : Int) : HandlerResult :=
  let msg : ServerMessage :=
    { source_ip := sender.take 63, json_payload := payload.take 255 }
  let put := k_msgq_put queue msg
  let reg' :=
    if put.2 then
      node_manager_update reg msg.source_ip (parse_room_name msg.json_payload 20) now
    else reg
  { queue := put.1, registry := reg', acked := confirmable }

/-! ### VTT mold model (vtt_model.h / vtt_model.c) -/

/-- vtt_material_t. -/
inductive VttMaterial where
  | VTT_MAT_SENSITIVE
  | VTT_MAT_MEDIUM_RESISTANT
  | VTT_MAT_RESISTANT
  deriving DecidableEq, Repr

/-- vtt_risk_level_t. -/
inductive VttRiskLevel where
  | MOLD_RISK_CLEAN
  | MOLD_RISK_WARNING
  | MOLD_RISK_ALERT
  | MOLD_RISK_CRITICAL
  deriving DecidableEq, Repr

/-- vtt_state_t.  Machine floats are embedded as exact reals; the model's
transcendental regression requires ℝ rather than ℚ. -/
structure VttState where
  material : VttMaterial
  surface_quality : ℝ
  wood_species : ℝ
  growing_condition : Bool
  rh_mat : ℝ
  rh_crit : ℝ
  mold_index : ℝ
  time_wet_hours : ℝ
  time_dry_hours : ℝ
  last_growth_rate : ℝ
  max_possible_index : ℝ

/-- clampf of vtt_model.c. -/
noncomputable def clampf (value mn mx : ℝ) : ℝ :=
  if value < mn then mn else if value > mx then mx else value

/-- get_material_k1 of vtt_model.c. -/
def get_material_k1 : VttMaterial → ℝ
  | VttMaterial.VTT_MAT_SENSITIVE => 1
  | VttMaterial.VTT_MAT_MEDIUM_RESISTANT => 0.3
  | VttMaterial.VTT_MAT_RESISTANT => 0.1

/-- calculate_rh_critical of vtt_model.c, as a function of the state's
material offset rh_mat and the (already clamped) temperature; the source
stores the result into ctx->rh_crit.  RH_CRIT_MIN_WARM is 80. -/
noncomputable def calculate_rh_critical (rh_mat T : ℝ) : ℝ :=
  if T > 20 then 80 + rh_mat
  else (-0.00267 * (T * T * T)) + (0.160 * (T * T)) - (3.13 * T) + 100 + rh_mat

/-- vtt_init of vtt_model.c: zeroed state, then material coefficients. -/
def vtt_init (mat : VttMaterial) : VttState :=
  let base : VttState :=
    { material := mat, surface_quality := 0, wood_species := 0,
      growing_condition := false, rh_mat := 0, rh_crit := 0, mold_index := 0,
      time_wet_hours := 0, time_dry_hours := 0, last_growth_rate := 0,
      max_possible_index := 0 }
  match mat with
  | VttMaterial.VTT_MAT_SENSITIVE =>
    { base with surface_quality := 0, wood_species := 0, rh_mat := 0 }
  | VttMaterial.VTT_MAT_MEDIUM_RESISTANT =>
    { base with surface_quality := 1, wood_species := 1, rh_mat := 3 }
  | VttMaterial.VTT_MAT_RESISTANT =>
    { base with surface_quality := 1, wood_species := 1, rh_mat := 6 }

/-- The growth branch of vtt_update (safe_rh > rh_crit), after rh_crit has
been stored: wet-time bookkeeping, maximum index for this humidity, the
regression-based base rate, intensity k1, saturation k2, one Euler step,
and the final clamp applied by the function's tail. -/
noncomputable def vtt_growth_step (ctx : VttState) (safe_t safe_rh rhc dt : ℝ) : VttState :=
  let m_max := clampf (6 * (safe_rh - rhc) / (100 - rhc)) 0 6
  let exponent := (-0.68 * Real.log safe_t) - (13.9 * Real.log safe_rh) +
    (0.14 * ctx.wood_species) - (0.33 * ctx.surface_quality) + 66.02
  let base_growth_rate := 1 / (7 * Real.exp exponent)
  let k1 := get_material_k1 ctx.material
  let dist_to_max := ctx.mold_index - m_max
  let k2 := max (1 - Real.exp (2.3 * dist_to_max)) 0
  let dM := k1 * k2 * base_growth_rate * dt
  { ctx with
    rh_crit := rhc,
    time_wet_hours := ctx.time_wet_hours + dt,
    time_dry_hours := 0,
    growing_condition := true,
    max_possible_index := m_max,
    mold_index := clampf (ctx.mold_index + dM) 0 6,
    last_growth_rate := dM / dt }

/-- The decline rate schedule of the dry branch, keyed on the already
incremented dry-time accumulator. -/
noncomputable def vtt_decline_rate (dry : ℝ) : ℝ :=
  if dry ≤ 6 then -0.032 else if dry ≤ 24 then 0 else -0.016

/-- The decline branch of vtt_update (safe_rh <= rh_crit): dry-time
bookkeeping, rate schedule, one Euler step, final clamp. -/
noncomputable def vtt_decline_step (ctx : VttState) (rhc dt : ℝ) : VttState :=
  let dry := ctx.time_dry_hours + dt
  let dM := vtt_decline_rate dry * dt
  { ctx with
    rh_crit := rhc,
    time_dry_hours := dry,
    time_wet_hours := 0,
    growing_condition := false,
    mold_index := clampf (ctx.mold_index + dM) 0 6,
    last_growth_rate := dM / dt }

/-- vtt_update of vtt_model.c: clamp inputs, compute the critical
humidity, then exactly one of the two phases. -/
noncomputable def vtt_update (ctx : VttState) (temp_c rh_percent time_step_hours : ℝ) :
    VttState :=
  let safe_t := clampf temp_c 0.1 60
  let safe_rh := clampf rh_percent 1 100
  let rhc := calculate_rh_critical ctx.rh_mat safe_t
  if safe_rh > rhc then vtt_growth_step ctx safe_t safe_rh rhc time_step_hours
  else vtt_decline_step ctx rhc time_step_hours

/-- vtt_get_risk_level of vtt_model.c. -/
noncomputable def vtt_get_risk_level (ctx : VttState) : VttRiskLevel :=
  if ctx.mold_index < 1 then VttRiskLevel.MOLD_RISK_CLEAN
  else if ctx.mold_index < 3 then VttRiskLevel.MOLD_RISK_WARNING
  else if ctx.mold_index < 4 then VttRiskLevel.MOLD_RISK_ALERT
  else VttRiskLevel.MOLD_RISK_CRITICAL

/-! ### Concrete evaluation inputs -/

/-- A channel whose driver calls all succeed and decode the given integer
temperature and humidity. -/
def okDevice (t h : Int) : DeviceRead :=
  { ready_code := 1, fetch_code := 0, temp_get_code := 0, humi_get_code := 0,
    temperature := ⟨t, 0⟩, humidity := ⟨h, 0⟩ }

/-- A model state that has already been dry for 30 hours, used to evaluate
the long-dry decline regime. -/
def dryState30 : VttState :=
  { material := VttMaterial.VTT_MAT_SENSITIVE, surface_quality := 0,
    wood_species := 0, growing_condition := true, rh_mat := 0, rh_crit := 0,
    mold_index := 3, time_wet_hours := 2, time_dry_hours := 30,
    last_growth_rate := 0, max_possible_index := 6 }

/-- A registered node that has been silent since uptime 1 ms. -/
def staleNode : NodeInfo :=
  { source_ip := ("fd00::2").data, room_name := ("Den").data,
    last_seen := 1, is_online := true }

/-- A queue already holding its full capacity of messages. -/
def fullQueue : List ServerMessage :=
  List.replicate 10 { json_payload := [], source_ip := [] }

/-- A JSON payload carrying room_name "Den". -/
def denPayload : List Char := ("\x7b\"room_name\":\"Den\"\x7d").data

/-- Occurrences of an address among the registry's slot keys. -/
def countIp (reg : List NodeInfo) (ip : List Char) : Nat :=
  (reg.map NodeInfo.source_ip).count ip

/-! ## Theorems -/

/-! ### Helper lemmas -/

theorem clampf_mem (v mn mx : ℝ) (h : mn ≤ mx) :
    mn ≤ clampf v mn mx ∧ clampf v mn mx ≤ mx := by
  unfold clampf
  split_ifs with h1 h2
  · exact ⟨le_refl mn, h⟩
  · exact ⟨h, le_refl mx⟩
  · exact ⟨not_lt.mp h1, not_lt.mp h2⟩

theorem le_clampf (x y : ℝ) (hx0 : 0 ≤ x) (hx6 : x ≤ 6) (hxy : x ≤ y) :
    x ≤ clampf y 0 6 := by
  unfold clampf
  split_ifs with h1 h2
  · linarith
  · exact hx6
  · exact hxy

theorem k_msgq_put_all_spec (msgs : List ServerMessage) : ∀ q : List ServerMessage,
    (k_msgq_put_all q msgs).1 = q ++ msgs.take (SERVER_QUEUE_CAPACITY - q.length) ∧
    (k_msgq_put_all q msgs).1.length + (k_msgq_put_all q msgs).2 =
      q.length + msgs.length := by
  induction msgs with
  | nil => intro q; simp [k_msgq_put_all]
  | cons m rest ih =>
    intro q
    simp only [k_msgq_put_all, k_msgq_put]
    by_cases h : q.length < SERVER_QUEUE_CAPACITY
    · simp only [if_pos h]
      obtain ⟨ih1, ih2⟩ := ih (q ++ [m])
      refine ⟨?_, ?_⟩
      · rw [ih1]
        have hlen : (q ++ [m]).length = q.length + 1 := by simp
        rw [hlen]
        have hcap : SERVER_QUEUE_CAPACITY - q.length =
            (SERVER_QUEUE_CAPACITY - (q.length + 1)) + 1 := by
          unfold SERVER_QUEUE_CAPACITY at h ⊢; omega
        rw [hcap, List.take_succ_cons, List.append_assoc, List.singleton_append]
      · have hlen : (q ++ [m]).length = q.length + 1 := by simp
        rw [hlen] at ih2
        simp only [List.length_cons, if_true]
        omega
    · simp only [if_neg h]
      obtain ⟨ih1, ih2⟩ := ih q
      have hcap : SERVER_QUEUE_CAPACITY - q.length = 0 := by
        unfold SERVER_QUEUE_CAPACITY at h ⊢; omega
      refine ⟨?_, ?_⟩
      · rw [ih1, hcap]; simp
      · simp only [List.length_cons, Bool.false_eq_true, if_false]
        omega

/-! ### C1: the mold index invariant -/

/-- C1: for every model state and every (temperature, humidity,
time_step_hours) input, vtt_update leaves mold_index inside [0, 6]; in
particular a state already satisfying the invariant keeps it. -/
theorem vtt_update_mold_index_C1 (ctx : VttState) (t rh dt : ℝ) :
    0 ≤ (vtt_update ctx t rh dt).mold_index ∧ (vtt_update ctx t rh dt).mold_index ≤ 6 := by
  simp only [vtt_update]
  split_ifs
  · simp only [vtt_growth_step]
    exact clampf_mem _ 0 6 (by norm_num)
  · simp only [vtt_decline_step]
    exact clampf_mem _ 0 6 (by norm_num)

/-! ### C2: the combined out-of-range code is unreachable -/

/-- C2 (divergence witness): a sample with temperature 85 and humidity 150
— both out of range — makes check_sensor return the single-field code
TEMPERATURE_VAL_OUT_OF_RANGE, not VALUES_OUT_OF_RANGE: the two
single-field range checks return before the combined check is reached, so
the combined code is unreachable.  A temperature-only violation does yield
the temperature code, as the claim says. -/
theorem check_sensor_range_C2 :
    (check_sensor (okDevice 85 150)).1 = HealthStatus.TEMPERATURE_VAL_OUT_OF_RANGE ∧
    (check_sensor (okDevice 85 150)).1 ≠ HealthStatus.VALUES_OUT_OF_RANGE ∧
    ((85 : Int) < -40 ∨ (85 : Int) > 80) ∧ ((150 : Int) < 0 ∨ (150 : Int) > 100) ∧
    (check_sensor (okDevice 85 50)).1 = HealthStatus.TEMPERATURE_VAL_OUT_OF_RANGE := by
  decide

/-! ### C7: bounded pipeline backpressure -/

/-- C7: enqueueing capacity + 1 messages into the empty pipeline with no
consumer draining retains exactly the first capacity messages, in order,
and drops exactly one; the producer gets no error (the drop count is only
logged, the put sequence is total). -/
theorem pipeline_backpressure_C7 (msgs : List ServerMessage)
    (h : msgs.length = SERVER_QUEUE_CAPACITY + 1) :
    (k_msgq_put_all [] msgs).1 = msgs.take SERVER_QUEUE_CAPACITY ∧
    (k_msgq_put_all [] msgs).1.length = SERVER_QUEUE_CAPACITY ∧
    (k_msgq_put_all [] msgs).2 = 1 := by
  obtain ⟨h1, h2⟩ := k_msgq_put_all_spec msgs []
  simp only [List.length_nil, Nat.sub_zero, List.nil_append, Nat.zero_add] at h1 h2
  have hl : (k_msgq_put_all [] msgs).1.length = SERVER_QUEUE_CAPACITY := by
    rw [h1, List.length_take, h]
    simp
  refine ⟨h1, hl, ?_⟩
  rw [hl, h] at h2
  omega

theorem pipeline_backpressure_C7_witness :
    (k_msgq_put_all []
      (List.replicate (SERVER_QUEUE_CAPACITY + 1) { json_payload := [], source_ip := [] })).2
      = 1 :=
  (pipeline_backpressure_C7 _ (by simp)).2.2

/-! ### C3: the drift cross-check -/

theorem signFlip_eq_abs (x : ℚ) : (if x < 0 then -x else x) = |x| := by
  rcases lt_or_le x 0 with hx | hx
  · rw [if_pos hx, abs_of_neg hx]
  · rw [if_neg (not_lt.mpr hx), abs_of_nonneg hx]

/-- C3: the drift cross-check runs only when both channels are Ok; with
both Ok, a temperature or humidity difference above 5.0 escalates both
statuses to VALUE_DRIFT, and differences at most 5.0 leave both Ok; the
escalation inside check_drift never overwrites a non-Ok channel. -/
theorem drift_check_C3 (dA dB : DeviceRead) :
    (¬((check_sensor dA).1 = HealthStatus.HEALTH_OK ∧
        (check_sensor dB).1 = HealthStatus.HEALTH_OK) →
      check_system_health dA dB = ((check_sensor dA).1, (check_sensor dB).1)) ∧
    ((check_sensor dA).1 = HealthStatus.HEALTH_OK →
      (check_sensor dB).1 = HealthStatus.HEALTH_OK →
      (5 < |(check_sensor dA).2.1 - (check_sensor dB).2.1| ∨
       5 < |(check_sensor dA).2.2 - (check_sensor dB).2.2|) →
      check_system_health dA dB = (HealthStatus.VALUE_DRIFT, HealthStatus.VALUE_DRIFT)) ∧
    ((check_sensor dA).1 = HealthStatus.HEALTH_OK →
      (check_sensor dB).1 = HealthStatus.HEALTH_OK →
      |(check_sensor dA).2.1 - (check_sensor dB).2.1| ≤ 5 →
      |(check_sensor dA).2.2 - (check_sensor dB).2.2| ≤ 5 →
      check_system_health dA dB = (HealthStatus.HEALTH_OK, HealthStatus.HEALTH_OK)) ∧
    (∀ t1 h1 t2 h2 s0 s1, s0 ≠ HealthStatus.HEALTH_OK →
      (check_drift t1 h1 t2 h2 s0 s1).1 = s0) ∧
    (∀ t1 h1 t2 h2 s0 s1, s1 ≠ HealthStatus.HEALTH_OK →
      (check_drift t1 h1 t2 h2 s0 s1).2 = s1) := by
  refine ⟨?_, ?_, ?_, ?_, ?_⟩
  · intro h
    simp only [check_system_health]
    rw [if_neg h]
  · intro h0 h1 hgt
    simp only [check_system_health, check_drift, gt_iff_lt]
    rw [if_pos ⟨h0, h1⟩, signFlip_eq_abs, signFlip_eq_abs, if_pos hgt, if_pos h0, if_pos h1]
  · intro h0 h1 ht hh
    simp only [check_system_health, check_drift, gt_iff_lt]
    rw [if_pos ⟨h0, h1⟩, signFlip_eq_abs, signFlip_eq_abs,
      if_neg (not_or.mpr ⟨not_lt.mpr ht, not_lt.mpr hh⟩), h0, h1]
  · intro t1 h1 t2 h2 s0 s1 hs0
    simp only [check_drift]
    split_ifs <;> simp_all
  · intro t1 h1 t2 h2 s0 s1 hs1
    simp only [check_drift]
    split_ifs <;> simp_all

theorem drift_check_C3_witness :
    check_system_health (okDevice 20 50) (okDevice 30 50) =
      (HealthStatus.VALUE_DRIFT, HealthStatus.VALUE_DRIFT) :=
  (drift_check_C3 (okDevice 20 50) (okDevice 30 50)).2.1 (by decide) (by decide)
    (by norm_num [check_sensor, okDevice, sensor_value_to_double])

/-! ### C4: the decline-phase rate schedule -/

/-- C4 counterexample: a decline step whose accumulated dry time exceeds
24 hours applies the per-hour rate -0.016, whose magnitude is smaller
than the short-spell rate -0.032 — the index change over this one-hour
step is -0.016, not a faster decline than the short-spell regime. -/
theorem decline_rate_C4_counterexample :
    clampf 50 1 100 ≤ calculate_rh_critical dryState30.rh_mat (clampf 25 0.1 60) ∧
    dryState30.time_dry_hours + 1 > 24 ∧
    (vtt_update dryState30 25 50 1).time_dry_hours = 31 ∧
    (vtt_update dryState30 25 50 1).growing_condition = false ∧
    (vtt_update dryState30 25 50 1).mold_index - dryState30.mold_index = -0.016 ∧
    ¬((vtt_update dryState30 25 50 1).mold_index - dryState30.mold_index < -0.032) := by
  norm_num [vtt_update, vtt_decline_step, vtt_decline_rate, clampf, calculate_rh_critical,
    dryState30]

/-- C4 (amended): a decline step increments the dry-time accumulator,
resets the wet-time accumulator, clears growing, and applies per hour
-0.032 for accumulated dry time at most 6 h, exactly zero between 6 and
24 h, and -0.016 beyond 24 h — a nonzero decline whose magnitude is
smaller than the short-spell rate, not larger. -/
theorem decline_step_C4_amended (ctx : VttState) (t rh dt : ℝ)
    (hd : clampf rh 1 100 ≤ calculate_rh_critical ctx.rh_mat (clampf t 0.1 60)) :
    (vtt_update ctx t rh dt).time_dry_hours = ctx.time_dry_hours + dt ∧
    (vtt_update ctx t rh dt).time_wet_hours = 0 ∧
    (vtt_update ctx t rh dt).growing_condition = false ∧
    (ctx.time_dry_hours + dt ≤ 6 →
      (vtt_update ctx t rh dt).mold_index = clampf (ctx.mold_index + (-0.032) * dt) 0 6) ∧
    (6 < ctx.time_dry_hours + dt → ctx.time_dry_hours + dt ≤ 24 →
      (vtt_update ctx t rh dt).mold_index = clampf (ctx.mold_index + 0 * dt) 0 6) ∧
    (24 < ctx.time_dry_hours + dt →
      (vtt_update ctx t rh dt).mold_index = clampf (ctx.mold_index + (-0.016) * dt) 0 6) ∧
    |(-0.016 : ℝ)| < |(-0.032 : ℝ)| := by
  have hnot : ¬(clampf rh 1 100 > calculate_rh_critical ctx.rh_mat (clampf t 0.1 60)) :=
    not_lt.mpr hd
  simp only [vtt_update, vtt_decline_step, vtt_decline_rate]
  rw [if_neg hnot]
  refine ⟨rfl, rfl, rfl, ?_, ?_, ?_, ?_⟩
  · intro h
    rw [if_pos h]
  · intro h1 h2
    rw [if_neg (not_le.mpr h1), if_pos h2]
  · intro h
    rw [if_neg (not_le.mpr (by linarith)), if_neg (not_le.mpr h)]
  · rw [abs_neg, abs_neg, abs_of_nonneg (by norm_num : (0:ℝ) ≤ 0.016),
      abs_of_nonneg (by norm_num : (0:ℝ) ≤ 0.032)]
    norm_num

theorem decline_step_C4_witness :
    (vtt_update (vtt_init VttMaterial.VTT_MAT_SENSITIVE) 25 50 1).time_dry_hours =
      (vtt_init VttMaterial.VTT_MAT_SENSITIVE).time_dry_hours + 1 ∧
    (vtt_update (vtt_init VttMaterial.VTT_MAT_SENSITIVE) 25 50 1).growing_condition = false := by
  have h := decline_step_C4_amended (vtt_init VttMaterial.VTT_MAT_SENSITIVE) 25 50 1
    (by norm_num [vtt_init, calculate_rh_critical, clampf])
  exact ⟨h.1, h.2.2.1⟩

/-! ### C10: growth-phase monotonicity -/

theorem growth_dM_nonneg (k1 s e dt : ℝ) (hk1 : 0 < k1) (hdt : 0 ≤ dt) :
    0 ≤ k1 * max (1 - Real.exp s) 0 * (1 / (7 * Real.exp e)) * dt :=
  mul_nonneg (mul_nonneg (mul_nonneg hk1.le (le_max_right _ _)) (by positivity)) hdt

/-- C10: a growth step (clamped humidity strictly above the critical
humidity) with a non-negative time step never decreases a mold index that
satisfies the [0,6] invariant, sets growing, and the material intensity
factor k1 is positive (0 < k1 for every material class). -/
theorem growth_monotone_C10 (ctx : VttState) (t rh dt : ℝ)
    (hg : calculate_rh_critical ctx.rh_mat (clampf t 0.1 60) < clampf rh 1 100)
    (hdt : 0 ≤ dt) (h0 : 0 ≤ ctx.mold_index) (h6 : ctx.mold_index ≤ 6) :
    ctx.mold_index ≤ (vtt_update ctx t rh dt).mold_index ∧
    (vtt_update ctx t rh dt).growing_condition = true ∧
    0 < get_material_k1 ctx.material := by
  have hk1 : 0 < get_material_k1 ctx.material := by
    cases ctx.material <;> norm_num [get_material_k1]
  simp only [vtt_update]
  split_ifs with hcond
  · simp only [vtt_growth_step]
    refine ⟨?_, trivial, hk1⟩
    exact le_clampf _ _ h0 h6 (le_add_of_nonneg_right (growth_dM_nonneg _ _ _ _ hk1 hdt))
  · exact absurd hg hcond

theorem growth_monotone_C10_witness :
    (vtt_init VttMaterial.VTT_MAT_SENSITIVE).mold_index ≤
      (vtt_update (vtt_init VttMaterial.VTT_MAT_SENSITIVE) 24 95 1).mold_index ∧
    (vtt_update (vtt_init VttMaterial.VTT_MAT_SENSITIVE) 24 95 1).growing_condition = true ∧
    0 < get_material_k1 (vtt_init VttMaterial.VTT_MAT_SENSITIVE).material :=
  growth_monotone_C10 (vtt_init VttMaterial.VTT_MAT_SENSITIVE) 24 95 1
    (by norm_num [vtt_init, calculate_rh_critical, clampf])
    (by norm_num) (by norm_num [vtt_init]) (by norm_num [vtt_init])

/-! ### Registry helper lemmas -/

theorem registryRefresh_none_iff (ip room : List Char) (now : Int) (hip : ip ≠ []) :
    ∀ reg : List NodeInfo,
      registryRefresh ip room now reg = none ↔ ∀ s ∈ reg, s.source_ip ≠ ip := by
  intro reg
  induction reg with
  | nil => simp [registryRefresh]
  | cons s rest ih =>
    simp only [registryRefresh]
    by_cases hc : s.source_ip ≠ [] ∧ s.source_ip = ip
    · rw [if_pos hc]
      constructor
      · intro h; exact absurd h (by simp)
      · intro h; exact absurd hc.2 (h s (List.mem_cons_self s rest))
    · rw [if_neg hc, Option.map_eq_none', ih]
      constructor
      · intro h x hx
        rcases List.mem_cons.mp hx with rfl | hx'
        · intro hxip
          exact hc ⟨by rw [hxip]; exact hip, hxip⟩
        · exact h x hx'
      · intro h x hx
        exact h x (List.mem_cons_of_mem s hx)

theorem registryRefresh_some_spec (ip room : List Char) (now : Int) :
    ∀ reg r : List NodeInfo, registryRefresh ip room now reg = some r →
      r.map NodeInfo.source_ip = reg.map NodeInfo.source_ip ∧
      r.length = reg.length ∧
      (∃ s ∈ r, s.source_ip = ip ∧ s.room_name = room.take 19 ∧
        s.last_seen = now ∧ s.is_online = true) ∧
      (∀ s ∈ reg, s.source_ip ≠ ip → s ∈ r) := by
  intro reg
  induction reg with
  | nil => intro r h; simp [registryRefresh] at h
  | cons s rest ih =>
    intro r h
    simp only [registryRefresh] at h
    by_cases hc : s.source_ip ≠ [] ∧ s.source_ip = ip
    · rw [if_pos hc] at h
      injection h with h'
      subst h'
      refine ⟨by simp, by simp, ?_, ?_⟩
      · exact ⟨_, List.mem_cons_self _ _, hc.2, rfl, rfl, rfl⟩
      · intro x hx hxip
        rcases List.mem_cons.mp hx with rfl | hx'
        · exact absurd hc.2 hxip
        · exact List.mem_cons_of_mem _ hx'
    · rw [if_neg hc, Option.map_eq_some'] at h
      obtain ⟨r', hr', rfl⟩ := h
      obtain ⟨m1, m2, m3, m4⟩ := ih r' hr'
      refine ⟨by simp [m1], by simp [m2], ?_, ?_⟩
      · obtain ⟨x, hx, hxs⟩ := m3
        exact ⟨x, List.mem_cons_of_mem _ hx, hxs⟩
      · intro x hx hxip
        rcases List.mem_cons.mp hx with rfl | hx'
        · exact List.mem_cons_self _ _
        · exact List.mem_cons_of_mem _ (m4 x hx' hxip)

theorem registryInsert_none_iff (ip room : List Char) (now : Int) :
    ∀ reg : List NodeInfo,
      registryInsert ip room now reg = none ↔ ∀ s ∈ reg, s.source_ip ≠ [] := by
  intro reg
  induction reg with
  | nil => simp [registryInsert]
  | cons s rest ih =>
    simp only [registryInsert]
    by_cases hc : s.source_ip = []
    · rw [if_pos hc]
      constructor
      · intro h; exact absurd h (by simp)
      · intro h; exact absurd hc (h s (List.mem_cons_self s rest))
    · rw [if_neg hc, Option.map_eq_none', ih]
      constructor
      · intro h x hx
        rcases List.mem_cons.mp hx with rfl | hx'
        · exact hc
        · exact h x hx'
      · intro h x hx
        exact h x (List.mem_cons_of_mem s hx)

theorem registryInsert_some_spec (ip room : List Char) (now : Int) :
    ∀ reg r : List NodeInfo, registryInsert ip room now reg = some r →
      r.length = reg.length ∧
      (∃ s ∈ r, s.source_ip = ip.take 63 ∧ s.room_name = room.take 19 ∧
        s.last_seen = now ∧ s.is_online = true) ∧
      (∀ s ∈ reg, s.source_ip ≠ [] → s ∈ r) ∧
      (ip.take 63 = ip → ip ≠ [] → countIp r ip = countIp reg ip + 1) := by
  intro reg
  induction reg with
  | nil => intro r h; simp [registryInsert] at h
  | cons s rest ih =>
    intro r h
    simp only [registryInsert] at h
    by_cases hc : s.source_ip = []
    · rw [if_pos hc] at h
      injection h with h'
      subst h'
      refine ⟨by simp, ?_, ?_, ?_⟩
      · exact ⟨_, List.mem_cons_self _ _, rfl, rfl, rfl, rfl⟩
      · intro x hx hxip
        rcases List.mem_cons.mp hx with rfl | hx'
        · exact absurd hc hxip
        · exact List.mem_cons_of_mem _ hx'
      · intro htake hip
        simp only [countIp, List.map_cons, List.count_cons, htake, hc]
        have h1 : (ip == ip) = true := by simp
        have h2 : (([] : List Char) == ip) = false := by
          simp only [beq_eq_false_iff_ne]
          exact fun he => hip he.symm
        rw [h1, h2]
        simp
    · rw [if_neg hc, Option.map_eq_some'] at h
      obtain ⟨r', hr', rfl⟩ := h
      obtain ⟨m1, m2, m3, m4⟩ := ih r' hr'
      refine ⟨by simp [m1], ?_, ?_, ?_⟩
      · obtain ⟨x, hx, hxs⟩ := m2
        exact ⟨x, List.mem_cons_of_mem _ hx, hxs⟩
      · intro x hx hxip
        rcases List.mem_cons.mp hx with rfl | hx'
        · exact List.mem_cons_self _ _
        · exact List.mem_cons_of_mem _ (m3 x hx' hxip)
      · intro htake hip
        simp only [countIp, List.map_cons, List.count_cons]
        have := m4 htake hip
        simp only [countIp] at this
        omega

theorem node_manager_update_of_refresh {reg r : List NodeInfo} {ip room : List Char}
    {now : Int} (h : registryRefresh ip room now reg = some r) :
    node_manager_update reg ip room now = r := by
  unfold node_manager_update
  rw [h]

theorem node_manager_update_of_insert {reg r : List NodeInfo} {ip room : List Char}
    {now : Int} (h1 : registryRefresh ip room now reg = none)
    (h2 : registryInsert ip room now reg = some r) :
    node_manager_update reg ip room now = r := by
  unfold node_manager_update
  rw [h1, h2]

theorem node_manager_update_of_full {reg : List NodeInfo} {ip room : List Char}
    {now : Int} (h1 : registryRefresh ip room now reg = none)
    (h2 : registryInsert ip room now reg = none) :
    node_manager_update reg ip room now = reg := by
  unfold node_manager_update
  rw [h1, h2]

theorem countIp_eq_zero_iff (reg : List NodeInfo) (ip : List Char) :
    countIp reg ip = 0 ↔ ∀ s ∈ reg, s.source_ip ≠ ip := by
  unfold countIp
  rw [List.count_eq_zero]
  constructor
  · intro h s hs he
    exact h (List.mem_map.mpr ⟨s, hs, he⟩)
  · intro h hmem
    obtain ⟨s, hs, he⟩ := List.mem_map.mp hmem
    exact h s hs he

theorem node_manager_update_length (reg : List NodeInfo) (ip room : List Char) (now : Int) :
    (node_manager_update reg ip room now).length = reg.length := by
  cases hr : registryRefresh ip room now reg with
  | some r =>
    rw [node_manager_update_of_refresh hr]
    exact (registryRefresh_some_spec ip room now reg r hr).2.1
  | none =>
    cases hi : registryInsert ip room now reg with
    | some r =>
      rw [node_manager_update_of_insert hr hi]
      exact (registryInsert_some_spec ip room now reg r hi).1
    | none =>
      rw [node_manager_update_of_full hr hi]

theorem node_manager_update_countIp (reg : List NodeInfo) (ip room : List Char) (now : Int)
    (hip : ip ≠ []) (htake : ip.take 63 = ip) :
    countIp (node_manager_update reg ip room now) ip =
      if countIp reg ip = 0 then (if ∀ s ∈ reg, s.source_ip ≠ [] then 0 else 1)
      else countIp reg ip := by
  cases hr : registryRefresh ip room now reg with
  | some r =>
    rw [node_manager_update_of_refresh hr]
    have hspec := registryRefresh_some_spec ip room now reg r hr
    have hcount : countIp r ip = countIp reg ip := by
      unfold countIp
      rw [hspec.1]
    have hpos : countIp reg ip ≠ 0 := by
      intro h0
      have hall := (countIp_eq_zero_iff reg ip).mp h0
      rw [← registryRefresh_none_iff ip room now hip reg] at hall
      rw [hall] at hr
      cases hr
    rw [if_neg hpos, hcount]
  | none =>
    have hall := (registryRefresh_none_iff ip room now hip reg).mp hr
    have hc0 : countIp reg ip = 0 := (countIp_eq_zero_iff reg ip).mpr hall
    rw [if_pos hc0]
    cases hi : registryInsert ip room now reg with
    | some r =>
      rw [node_manager_update_of_insert hr hi]
      have hne : ¬∀ s ∈ reg, s.source_ip ≠ [] := by
        intro hfull
        rw [← registryInsert_none_iff ip room now reg] at hfull
        rw [hfull] at hi
        cases hi
      rw [if_neg hne]
      have := (registryInsert_some_spec ip room now reg r hi).2.2.2 htake hip
      omega
    | none =>
      rw [node_manager_update_of_full hr hi]
      have hfull := (registryInsert_none_iff ip room now reg).mp hi
      rw [if_pos hfull, hc0]

theorem node_manager_update_entry (reg : List NodeInfo) (ip room : List Char) (now : Int)
    (hip : ip ≠ []) (htake : ip.take 63 = ip)
    (h : ¬(countIp reg ip = 0 ∧ ∀ s ∈ reg, s.source_ip ≠ [])) :
    ∃ s ∈ node_manager_update reg ip room now,
      s.source_ip = ip ∧ s.room_name = room.take 19 ∧
      s.last_seen = now ∧ s.is_online = true := by
  cases hr : registryRefresh ip room now reg with
  | some r =>
    rw [node_manager_update_of_refresh hr]
    exact (registryRefresh_some_spec ip room now reg r hr).2.2.1
  | none =>
    have hall := (registryRefresh_none_iff ip room now hip reg).mp hr
    have hc0 : countIp reg ip = 0 := (countIp_eq_zero_iff reg ip).mpr hall
    cases hi : registryInsert ip room now reg with
    | some r =>
      rw [node_manager_update_of_insert hr hi]
      obtain ⟨s, hs, he, hrest⟩ := (registryInsert_some_spec ip room now reg r hi).2.1
      exact ⟨s, hs, by rw [he, htake], hrest⟩
    | none =>
      have hfull := (registryInsert_none_iff ip room now reg).mp hi
      exact absurd ⟨hc0, hfull⟩ h

theorem node_manager_update_drop (reg : List NodeInfo) (ip room : List Char) (now : Int)
    (hip : ip ≠ []) (h0 : countIp reg ip = 0) (hfull : ∀ s ∈ reg, s.source_ip ≠ []) :
    node_manager_update reg ip room now = reg := by
  have hr : registryRefresh ip room now reg = none :=
    (registryRefresh_none_iff ip room now hip reg).mpr ((countIp_eq_zero_iff reg ip).mp h0)
  have hi : registryInsert ip room now reg = none :=
    (registryInsert_none_iff ip room now reg).mpr hfull
  exact node_manager_update_of_full hr hi

/-! ### C5: the registry upsert -/

/-- C5: node_manager_update is an upsert keyed by address.  Two updates
with the same (at most 63 character, non-empty) address leave at most one
slot carrying it; when the address was present or a free slot existed, the
result is exactly one slot with the second label (strncpy-truncated), the
refreshed timestamp and the online flag set; when neither holds, both
updates drop and the registry is untouched; the table size never changes
(no eviction). -/
theorem registry_upsert_C5 (reg : List NodeInfo) (ip l1 l2 : List Char) (t1 t2 : Int)
    (hip : ip ≠ []) (hlen : ip.length ≤ 63) (hone : countIp reg ip ≤ 1) :
    countIp (node_manager_update (node_manager_update reg ip l1 t1) ip l2 t2) ip ≤ 1 ∧
    (node_manager_update (node_manager_update reg ip l1 t1) ip l2 t2).length = reg.length ∧
    (¬(countIp reg ip = 0 ∧ ∀ s ∈ reg, s.source_ip ≠ []) →
      countIp (node_manager_update (node_manager_update reg ip l1 t1) ip l2 t2) ip = 1 ∧
      ∃ s ∈ node_manager_update (node_manager_update reg ip l1 t1) ip l2 t2,
        s.source_ip = ip ∧ s.room_name = l2.take 19 ∧
        s.last_seen = t2 ∧ s.is_online = true) ∧
    ((countIp reg ip = 0 ∧ ∀ s ∈ reg, s.source_ip ≠ []) →
      node_manager_update (node_manager_update reg ip l1 t1) ip l2 t2 = reg) := by
  have htake : ip.take 63 = ip := List.take_of_length_le hlen
  have hc1 := node_manager_update_countIp reg ip l1 t1 hip htake
  have hc2 := node_manager_update_countIp (node_manager_update reg ip l1 t1) ip l2 t2 hip htake
  refine ⟨?_, ?_, ?_, ?_⟩
  · split_ifs at hc1 hc2 <;> omega
  · rw [node_manager_update_length, node_manager_update_length]
  · intro h
    have hu1 : countIp (node_manager_update reg ip l1 t1) ip = 1 := by
      by_cases h0 : countIp reg ip = 0
      · have hne : ¬∀ s ∈ reg, s.source_ip ≠ [] := fun hf => h ⟨h0, hf⟩
        rw [hc1, if_pos h0, if_neg hne]
      · split_ifs at hc1
        omega
    constructor
    · rw [hc2, if_neg (by omega)]
      exact hu1
    · exact node_manager_update_entry _ ip l2 t2 hip htake (by intro hx; omega)
  · intro ⟨h0, hfull⟩
    rw [node_manager_update_drop reg ip l1 t1 hip h0 hfull,
      node_manager_update_drop reg ip l2 t2 hip h0 hfull]

theorem registry_upsert_C5_witness :
    countIp (node_manager_update (node_manager_update [emptySlot, emptySlot]
        ("fd00::1").data ("Kitchen").data 1) ("fd00::1").data ("Den").data 2)
      ("fd00::1").data = 1 ∧
    ∃ s ∈ node_manager_update (node_manager_update [emptySlot, emptySlot]
        ("fd00::1").data ("Kitchen").data 1) ("fd00::1").data ("Den").data 2,
      s.source_ip = ("fd00::1").data ∧ s.room_name = ("Den").data.take 19 ∧
      s.last_seen = 2 ∧ s.is_online = true :=
  (registry_upsert_C5 [emptySlot, emptySlot] ("fd00::1").data ("Kitchen").data
    ("Den").data 1 2 (by decide) (by decide) (by decide)).2.2.1 (by decide)

/-! ### Watchdog helper lemmas -/

theorem countP_filterMap {α β : Type} (f : α → Option β) (p : β → Bool) :
    ∀ l : List α, (l.filterMap f).countP p =
      l.countP (fun a => ((f a).map p).getD false) := by
  intro l
  induction l with
  | nil => simp
  | cons a t ih =>
    cases hfa : f a with
    | none =>
      rw [List.filterMap_cons_none hfa, List.countP_cons, ih]
      simp [hfa]
    | some b =>
      rw [List.filterMap_cons_some hfa, List.countP_cons, List.countP_cons, ih]
      simp [hfa]

theorem eq_of_countP_le_one {α : Type} (q : α → Bool) :
    ∀ l : List α, l.countP q ≤ 1 →
      ∀ a ∈ l, q a = true → ∀ b ∈ l, q b = true → a = b := by
  intro l
  induction l with
  | nil => intro _ a ha; cases ha
  | cons c t ih =>
    intro hle a ha hqa b hb hqb
    rw [List.countP_cons] at hle
    rcases List.mem_cons.mp ha with rfl | ha' <;> rcases List.mem_cons.mp hb with rfl | hb'
    · rfl
    · exfalso
      have h1 : 0 < t.countP q := List.countP_pos_iff.mpr ⟨b, hb', hqb⟩
      rw [if_pos hqa] at hle
      omega
    · exfalso
      have h1 : 0 < t.countP q := List.countP_pos_iff.mpr ⟨a, ha', hqa⟩
      rw [if_pos hqb] at hle
      omega
    · exact ih (by omega) a ha' hqa b hb' hqb

theorem sweepSlot_source_ip (now : Int) (x : NodeInfo) :
    (sweepSlot now x).source_ip = x.source_ip := by
  unfold sweepSlot
  split_ifs <;> rfl

/-! ### C6: the watchdog sweep alerts exactly once -/

/-- C6: an occupied, online slot whose silence exceeds the threshold is
flipped offline by the sweep and contributes exactly one node-lost alert;
a later sweep leaves the (now offline) slot untouched and contributes no
further alert for it, as long as every slot address fits its 64-byte
buffer and the address identifies at most one slot. -/
theorem watchdog_C6 (reg : List NodeInfo) (now now2 : Int) (s : NodeInfo)
    (hmem : s ∈ reg) (hocc : s.source_ip ≠ []) (hon : s.is_online = true)
    (hexp : now - s.last_seen > TIMEOUT_MS)
    (hlen : ∀ x ∈ reg, x.source_ip.length ≤ 63)
    (huniq : reg.countP (fun x => x.source_ip == s.source_ip) = 1) :
    (node_manager_check_timeout now reg).1 = reg.map (sweepSlot now) ∧
    sweepSlot now s = { s with is_online := false } ∧
    sweepSlot now2 (sweepSlot now s) = { s with is_online := false } ∧
    (node_manager_check_timeout now reg).2.countP
      (fun m => m.source_ip == s.source_ip.take 63) = 1 ∧
    (node_manager_check_timeout now2 (node_manager_check_timeout now reg).1).2.countP
      (fun m => m.source_ip == s.source_ip.take 63) = 0 := by
  have hfire : sweepSlot now s = { s with is_online := false } := by
    unfold sweepSlot
    rw [if_pos ⟨hocc, hon, hexp⟩]
  have hstay : sweepSlot now2 (sweepSlot now s) = { s with is_online := false } := by
    rw [hfire]
    unfold sweepSlot
    rw [if_neg (by rintro ⟨-, h2, -⟩; simp at h2)]
  have htake : ∀ x ∈ reg, x.source_ip.take 63 = x.source_ip := by
    intro x hx
    exact List.take_of_length_le (hlen x hx)
  have hequiv : ∀ x ∈ reg,
      ((x.source_ip.take 63 == s.source_ip.take 63) = true ↔
       (x.source_ip == s.source_ip) = true) := by
    intro x hx
    rw [htake x hx, htake s hmem]
  refine ⟨rfl, hfire, hstay, ?_, ?_⟩
  · show (reg.filterMap (sweepAlert now)).countP _ = 1
    rw [countP_filterMap]
    have hub : reg.countP
        (fun a => (((sweepAlert now a).map
          (fun m => m.source_ip == s.source_ip.take 63)).getD false)) ≤ 1 := by
      calc reg.countP _ ≤ reg.countP (fun x => x.source_ip == s.source_ip) := by
            apply List.countP_mono_left
            intro x hx hpx
            unfold sweepAlert at hpx
            split_ifs at hpx with hcond
            · simp only [Option.map_some', Option.getD_some, nodeLostAlert] at hpx
              rw [← hequiv x hx]
              exact hpx
            · simp at hpx
        _ = 1 := huniq
    have hlb : 0 < reg.countP
        (fun a => (((sweepAlert now a).map
          (fun m => m.source_ip == s.source_ip.take 63)).getD false)) := by
      apply List.countP_pos_iff.mpr
      refine ⟨s, hmem, ?_⟩
      unfold sweepAlert
      rw [if_pos ⟨hocc, hon, hexp⟩]
      simp [nodeLostAlert]
    omega
  · show ((reg.map (sweepSlot now)).filterMap (sweepAlert now2)).countP _ = 0
    rw [countP_filterMap, List.countP_map]
    rw [List.countP_eq_zero]
    intro x hx hpx
    simp only [Function.comp] at hpx
    unfold sweepAlert at hpx
    split_ifs at hpx with hcond
    · simp only [Option.map_some', Option.getD_some, nodeLostAlert] at hpx
      rw [sweepSlot_source_ip] at hpx hcond
      have hxq : (x.source_ip == s.source_ip) = true := by
        rw [← hequiv x hx]
        exact hpx
      have hxs : x = s := by
        apply eq_of_countP_le_one (fun x => x.source_ip == s.source_ip) reg
          (le_of_eq huniq) x hx hxq s hmem
        simp
      subst hxs
      rw [hfire] at hcond
      obtain ⟨-, h2, -⟩ := hcond
      simp at h2
    · simp at hpx

theorem watchdog_C6_witness :
    sweepSlot 20000 staleNode = { staleNode with is_online := false } ∧
    (node_manager_check_timeout 20000 [staleNode]).2.countP
      (fun m => m.source_ip == staleNode.source_ip.take 63) = 1 := by
  have h := watchdog_C6 [staleNode] 20000 40000 staleNode
    (by decide) (by decide) (by decide) (by decide) (by decide) (by decide)
  exact ⟨h.2.1, h.2.2.2.1⟩

/-! ### C8: the storedata request handler -/

/-- C8 counterexample: when the pipeline is full, the handler drops the
message and skips the registry update entirely — the registry does not
receive the (address, room) upsert the claim requires for every request —
although the ACK is still sent. -/
theorem handler_C8_counterexample :
    (storedata_request_handler fullQueue [emptySlot]
        ("fd00::5").data denPayload true 5).registry ≠
      node_manager_update [emptySlot] (("fd00::5").data.take 63)
        (parse_room_name (denPayload.take 255) 20) 5 ∧
    (storedata_request_handler fullQueue [emptySlot]
        ("fd00::5").data denPayload true 5).registry = [emptySlot] ∧
    (storedata_request_handler fullQueue [emptySlot]
        ("fd00::5").data denPayload true 5).acked = true := by
  decide

/-- C8 (amended): for every request the handler attempts the non-blocking
pipeline enqueue and ACKs confirmable requests regardless of the enqueue
outcome, but the registry update (with the room name extracted by the
best-effort scan, which yields "Unknown" when the key is absent) runs only
when the enqueue succeeded; on a full queue it is skipped. -/
theorem handler_C8_amended (q : List ServerMessage) (reg : List NodeInfo)
    (sender payload : List Char) (confirmable : Bool) (now : Int) :
    (storedata_request_handler q reg sender payload confirmable now).acked = confirmable ∧
    (storedata_request_handler q reg sender payload confirmable now).queue =
      (k_msgq_put q { source_ip := sender.take 63, json_payload := payload.take 255 }).1 ∧
    ((k_msgq_put q { source_ip := sender.take 63, json_payload := payload.take 255 }).2
        = true →
      (storedata_request_handler q reg sender payload confirmable now).registry =
        node_manager_update reg (sender.take 63)
          (parse_room_name (payload.take 255) 20) now) ∧
    ((k_msgq_put q { source_ip := sender.take 63, json_payload := payload.take 255 }).2
        = false →
      (storedata_request_handler q reg sender payload confirmable now).registry = reg) ∧
    (strAfter ("\"room_name\"").data payload = none →
      parse_room_name payload 20 = ("Unknown").data) := by
  refine ⟨rfl, rfl, ?_, ?_, ?_⟩
  · intro h
    simp only [storedata_request_handler]
    rw [if_pos h]
  · intro h
    simp only [storedata_request_handler]
    rw [if_neg (by simp [h])]
  · intro h
    simp only [parse_room_name, h]
    decide

theorem handler_C8_witness :
    (storedata_request_handler [] [emptySlot] ("fd00::5").data denPayload true 7).registry =
      node_manager_update [emptySlot] (("fd00::5").data.take 63)
        (parse_room_name (denPayload.take 255) 20) 7 :=
  (handler_C8_amended [] [emptySlot] ("fd00::5").data denPayload true 7).2.2.1 (by decide)

/-! ### C9: health gating and report classification -/

/-- C9: after a health cycle a channel is enabled iff its status code is
at or below VALUE_DRIFT in the enum's severity order, and the emitted
report is ALERT iff some channel is strictly worse than VALUE_DRIFT; in
particular a drift-only cycle reports DATA with the channel enabled. -/
theorem health_gating_C9 (s0 s1 : HealthStatus) :
    (sensor_enabled s0 = true ↔ statusCode s0 ≤ statusCode HealthStatus.VALUE_DRIFT) ∧
    (health_report_kind s0 s1 = MsgKind.ALERT ↔
      (statusCode HealthStatus.VALUE_DRIFT < statusCode s0 ∨
       statusCode HealthStatus.VALUE_DRIFT < statusCode s1)) ∧
    (health_report_kind s0 s1 = MsgKind.DATA ↔
      (statusCode s0 ≤ statusCode HealthStatus.VALUE_DRIFT ∧
       statusCode s1 ≤ statusCode HealthStatus.VALUE_DRIFT)) ∧
    health_report_kind HealthStatus.VALUE_DRIFT HealthStatus.VALUE_DRIFT = MsgKind.DATA ∧
    sensor_enabled HealthStatus.VALUE_DRIFT = true := by
  cases s0 <;> cases s1 <;> decide

end MoldPrevention
